import Mathlib

/-!
Shallow embedding of `app/core/pipe_calc.py` (steady incompressible pipe-flow
hydraulics: Reynolds number, Darcy friction factor with laminar / Swamee-Jain /
Colebrook-fallback selection, Darcy-Weisbach head loss, minor losses, pressure
drop).

Python floats are modelled as real numbers.  Python's raising arithmetic is
made explicit: every operation that can raise (`/` on a zero denominator,
`math.log10` on a non-positive argument, `math.sqrt` on a negative argument)
returns in an `Except` monad, so a Python `raise` is an `Except.error` value.
-/

namespace PipeCalc

/-- Python exceptions raised by the module: `ValueError` (with its message)
and `ZeroDivisionError`. -/
inductive PyErr where
  | valueError : String → PyErr
  | zeroDivisionError : PyErr
deriving DecidableEq

/-- Module-level constant `g = 9.80665` (gravity, m/s2). -/
noncomputable def g : ℝ := 9.80665

/-- Python float division `a / b`: raises `ZeroDivisionError` when `b == 0`. -/
noncomputable def pdiv (a b : ℝ) : Except PyErr ℝ :=
  if b = 0 then Except.error PyErr.zeroDivisionError else Except.ok (a / b)

/-- Python `math.log10 x`: raises `ValueError` (math domain error) when
`x <= 0`, otherwise the base-10 logarithm. -/
noncomputable def plog10 (x : ℝ) : Except PyErr ℝ :=
  if x ≤ 0 then Except.error (PyErr.valueError "math domain error")
  else Except.ok (Real.logb 10 x)

/-- Python `math.sqrt x`: raises `ValueError` (math domain error) when
`x < 0`, otherwise the square root. -/
noncomputable def psqrt (x : ℝ) : Except PyErr ℝ :=
  if x < 0 then Except.error (PyErr.valueError "math domain error")
  else Except.ok (Real.sqrt x)

/-- Embeds `reynolds_number(rho, V, D, mu=None, nu=None)`:
if `nu` is `None` then `nu = mu / rho` (raising `ValueError` when `mu` is also
`None`), and the result is `V * D / nu`. -/
noncomputable def reynolds_number (rho V D : ℝ) (mu nu : Option ℝ) :
    Except PyErr ℝ :=
  match nu with
  | some n => pdiv (V * D) n
  | none =>
    match mu with
    | none => Except.error (PyErr.valueError "Provide mu or nu")
    | some m => do
        let n ← pdiv m rho
        pdiv (V * D) n

/-- Embeds `friction_factor_laminar(Re)`: `64.0 / Re`. -/
noncomputable def friction_factor_laminar (Re : ℝ) : Except PyErr ℝ :=
  pdiv 64 Re

/-- Embeds `friction_factor_swamee_jain(Re, eps_rel, D)`:
`A = eps_rel / D / 3.7`, `B = 5.74 / Re ** 0.9`,
`f = 0.25 / (log10 (A + B)) ** 2`, guarded by `Re <= 0 -> ValueError`. -/
noncomputable def friction_factor_swamee_jain (Re eps_rel D : ℝ) :
    Except PyErr ℝ :=
  if Re ≤ 0 then
    Except.error (PyErr.valueError "Re must be positive for Swamee-Jain")
  else do
    let q ← pdiv eps_rel D
    let A := q / 3.7
    let B ← pdiv 5.74 (Re ^ (0.9 : ℝ))
    let l ← plog10 (A + B)
    pdiv 0.25 (l ^ 2)

/-- Embeds the `for i in range(max_iter)` loop of `friction_factor_colebrook`,
recursing on the number of remaining iterations.  Each iteration evaluates
`lhs = 1.0 / math.sqrt(f)` (its value is unused but its exceptions are real),
`rhs = -2.0 * math.log10((eps_rel / D) / 3.7 + 2.51 / (Re * math.sqrt(f)))`,
`f_new = 1.0 / (rhs ** 2)`; returns `f_new` when `|f_new - f| < tol`, else
continues from `0.5 * (f + f_new)`.  When the iteration count is exhausted the
current `f` is returned (the code's `return f  # best effort`). -/
noncomputable def colebrook_loop (Re eps_rel D tol : ℝ) :
    ℕ → ℝ → Except PyErr ℝ
  | 0, f => Except.ok f
  | n + 1, f => do
      let s ← psqrt f
      let _lhs ← pdiv 1 s
      let a ← pdiv eps_rel D
      let x ← pdiv 2.51 (Re * s)
      let l ← plog10 (a / 3.7 + x)
      let rhs : ℝ := -2 * l
      let fn ← pdiv 1 (rhs ^ 2)
      if |fn - f| < tol then Except.ok fn
      else colebrook_loop Re eps_rel D tol n (0.5 * (f + fn))

/-- Embeds `friction_factor_colebrook(Re, eps_rel, D, f0, max_iter, tol)`
(Python defaults: `f0=0.02`, `max_iter=50`, `tol=1e-6`): guard `Re <= 0 ->
ValueError`, then run the iteration loop from the seed `f0`. -/
noncomputable def friction_factor_colebrook (Re eps_rel D f0 : ℝ)
    (max_iter : ℕ) (tol : ℝ) : Except PyErr ℝ :=
  if Re ≤ 0 then
    Except.error (PyErr.valueError "Re must be positive for Colebrook")
  else colebrook_loop Re eps_rel D tol max_iter f0

/-- Embeds `friction_factor(Re, eps_rel, D)`: `Re <= 0 -> ValueError`;
`Re < 2300 -> laminar`; otherwise try Swamee-Jain under
`try ... except Exception: pass`, return its value only when
`f_sj > 0 and f_sj < 1`, and in every other case (rejected value or any
exception) fall back to `friction_factor_colebrook` with its defaults. -/
noncomputable def friction_factor (Re eps_rel D : ℝ) : Except PyErr ℝ :=
  if Re ≤ 0 then Except.error (PyErr.valueError "Re must be positive")
  else if Re < 2300 then friction_factor_laminar Re
  else
    match friction_factor_swamee_jain Re eps_rel D with
    | Except.ok f_sj =>
        if 0 < f_sj ∧ f_sj < 1 then Except.ok f_sj
        else friction_factor_colebrook Re eps_rel D 0.02 50 1e-6
    | Except.error _ => friction_factor_colebrook Re eps_rel D 0.02 50 1e-6

/-- Embeds `velocity_from_flowrate(Q, D)`: `A = pi * D ** 2 / 4.0`,
result `Q / A`. -/
noncomputable def velocity_from_flowrate (Q D : ℝ) : Except PyErr ℝ :=
  pdiv Q (Real.pi * D ^ 2 / 4)

/-- Embeds `head_loss_darcy(f, L, D, V)`: `f * (L / D) * V ** 2 / (2.0 * g)`. -/
noncomputable def head_loss_darcy (f L D V : ℝ) : Except PyErr ℝ := do
  let r ← pdiv L D
  Except.ok (f * r * V ^ 2 / (2 * g))

/-- Embeds `minor_loss_head(K_total, V)`: `K_total * V ** 2 / (2.0 * g)`
(pure, never raises). -/
noncomputable def minor_loss_head (K_total V : ℝ) : ℝ :=
  K_total * V ^ 2 / (2 * g)

/-- Embeds `pressure_drop(rho, head_total)`: `rho * g * head_total`
(pure, never raises). -/
noncomputable def pressure_drop (rho head_total : ℝ) : ℝ :=
  rho * g * head_total

/-- The result dict of `analyze_pipe_flow`, with its seven keys. -/
structure FlowResult where
  Re : ℝ
  f : ℝ
  V : ℝ
  h_f : ℝ
  h_minor : ℝ
  head_total : ℝ
  deltaP : ℝ

/-- The part of `analyze_pipe_flow` after the velocity `V` is settled:
`rho is None -> ValueError "rho required"`, then the
`Re -> f -> h_f, h_minor -> head_total -> deltaP` chain. -/
noncomputable def analyze_core (V D L eps_rel : ℝ) (rho mu nu : Option ℝ)
    (K_total : ℝ) : Except PyErr FlowResult :=
  match rho with
  | none => Except.error (PyErr.valueError "rho required")
  | some r => do
      let Re ← reynolds_number r V D mu nu
      let f ← friction_factor Re eps_rel D
      let hf ← head_loss_darcy f L D V
      let hm := minor_loss_head K_total V
      let ht := hf + hm
      Except.ok ⟨Re, f, V, hf, hm, ht, pressure_drop r ht⟩

/-- Embeds `analyze_pipe_flow(Q, V, D, L, eps_rel, rho, mu, nu, K_total)`:
`Q is None and V is None -> ValueError "Provide Q or V"`; when `V is None` it
is derived from `Q` via `velocity_from_flowrate`; then the `analyze_core`
chain runs. -/
noncomputable def analyze_pipe_flow (Q V : Option ℝ) (D L eps_rel : ℝ)
    (rho mu nu : Option ℝ) (K_total : ℝ) : Except PyErr FlowResult :=
  match Q, V with
  | none, none => Except.error (PyErr.valueError "Provide Q or V")
  | _, some v => analyze_core v D L eps_rel rho mu nu K_total
  | some q, none => do
      let v ← velocity_from_flowrate q D
      analyze_core v D L eps_rel rho mu nu K_total

/-! Basic reduction lemmas for the raising primitives. -/

theorem pdiv_of_ne {b : ℝ} (a : ℝ) (h : b ≠ 0) : pdiv a b = Except.ok (a / b) :=
  if_neg h

theorem pdiv_zero (a : ℝ) : pdiv a 0 = Except.error PyErr.zeroDivisionError :=
  if_pos rfl

theorem plog10_of_pos {x : ℝ} (h : 0 < x) :
    plog10 x = Except.ok (Real.logb 10 x) :=
  if_neg (not_le.mpr h)

theorem psqrt_of_nonneg {x : ℝ} (h : 0 ≤ x) :
    psqrt x = Except.ok (Real.sqrt x) :=
  if_neg (not_lt.mpr h)

theorem ok_bind {α β : Type} (a : α) (k : α → Except PyErr β) :
    (Except.ok a >>= k) = k a := rfl

theorem error_bind {α β : Type} (e : PyErr) (k : α → Except PyErr β) :
    ((Except.error e : Except PyErr α) >>= k) = Except.error e := rfl

/-- C9: for every `Re` with `0 < Re < 2300`, `friction_factor(Re, eps, D)`
returns exactly `64 / Re`, with no iteration and independently of `eps`
and `D`. -/
theorem C9_laminar_regime (Re eps_rel D : ℝ) (h0 : 0 < Re) (h1 : Re < 2300) :
    friction_factor Re eps_rel D = Except.ok (64 / Re) := by
  unfold friction_factor
  rw [if_neg (not_le.mpr h0), if_pos h1]
  exact pdiv_of_ne 64 (ne_of_gt h0)

theorem C9_laminar_regime_witness :
    friction_factor 1000 0 1 = Except.ok (64 / 1000) :=
  C9_laminar_regime 1000 0 1 (by norm_num) (by norm_num)

/-- C7: for every `Re ≤ 0`, `friction_factor` raises
`ValueError "Re must be positive"` (never silently returns a value), and
`friction_factor_colebrook` re-checks the same precondition and raises
`ValueError "Re must be positive for Colebrook"`, for every `eps`, `D` and
every seed / iteration cap / tolerance. -/
theorem C7_nonpositive_Re_raises (Re eps_rel D f0 tol : ℝ) (max_iter : ℕ)
    (h : Re ≤ 0) :
    friction_factor Re eps_rel D =
        Except.error (PyErr.valueError "Re must be positive") ∧
    friction_factor_colebrook Re eps_rel D f0 max_iter tol =
        Except.error (PyErr.valueError "Re must be positive for Colebrook") := by
  constructor
  · unfold friction_factor
    rw [if_pos h]
  · unfold friction_factor_colebrook
    rw [if_pos h]

theorem C7_nonpositive_Re_raises_witness :
    friction_factor (-5) 0 1 =
        Except.error (PyErr.valueError "Re must be positive") ∧
    friction_factor_colebrook (-5) 0 1 0.02 50 1e-6 =
        Except.error (PyErr.valueError "Re must be positive for Colebrook") :=
  C7_nonpositive_Re_raises (-5) 0 1 0.02 1e-6 50 (by norm_num)

/-- C10: when `V` is supplied (non-`None`), the value of `Q` has no influence
on the result of `analyze_pipe_flow`: any two calls that differ only in `Q`
(including `Q = None`) return identical results, so supplying both `Q` and `V`
behaves exactly like supplying only `V` and does not raise the Q/V
validation error. -/
theorem C10_Q_noninterference (Q1 Q2 : Option ℝ) (v D L eps_rel : ℝ)
    (rho mu nu : Option ℝ) (K_total : ℝ) :
    analyze_pipe_flow Q1 (some v) D L eps_rel rho mu nu K_total =
      analyze_pipe_flow Q2 (some v) D L eps_rel rho mu nu K_total := by
  cases Q1 <;> cases Q2 <;> rfl

/-- C4 counterexample: with both `Q` and `V` supplied, `analyze_pipe_flow`
does not raise `ValueError "Provide Q or V"` (nor any other error): at
`Q = 5`, `V = 1`, `D = 1`, `L = 1`, `eps = 0`, `rho = 1`, `nu = 1`,
`K_total = 0` it returns the ordinary laminar result. -/
theorem C4_both_supplied_counterexample :
    analyze_pipe_flow (some 5) (some 1) 1 1 0 (some 1) none (some 1) 0 =
      Except.ok ⟨1, 64, 1, 32 / g, 0, 32 / g, 32⟩ := by
  norm_num [analyze_pipe_flow, analyze_core, reynolds_number, friction_factor,
    friction_factor_laminar, head_loss_darcy, minor_loss_head, pressure_drop,
    g, pdiv, ok_bind, error_bind, FlowResult.mk.injEq]

/-- C4 amended: `analyze_pipe_flow` raises `ValueError "Provide Q or V"` when
neither `Q` nor `V` is supplied; but when both are supplied it does not
raise — it ignores `Q` and behaves exactly as the same call with only `V`
supplied. -/
theorem C4_QV_validation (D L eps_rel : ℝ) (rho mu nu : Option ℝ)
    (K_total : ℝ) :
    analyze_pipe_flow none none D L eps_rel rho mu nu K_total =
        Except.error (PyErr.valueError "Provide Q or V") ∧
    (∀ q v : ℝ,
        analyze_pipe_flow (some q) (some v) D L eps_rel rho mu nu K_total =
          analyze_pipe_flow none (some v) D L eps_rel rho mu nu K_total) := by
  exact ⟨rfl, fun q v => rfl⟩

/-- C8: mode-equivalence. If `velocity_from_flowrate Q0 D` evaluates to `v0`,
then `analyze_pipe_flow` called with `Q = Q0` (and `V = None`) returns the
same result, field by field, as `analyze_pipe_flow` called with `V = v0` and
the same remaining parameters. -/
theorem C8_mode_equivalence (Q0 v0 D L eps_rel : ℝ) (rho mu nu : Option ℝ)
    (K_total : ℝ) (hv : velocity_from_flowrate Q0 D = Except.ok v0) :
    analyze_pipe_flow (some Q0) none D L eps_rel rho mu nu K_total =
      analyze_pipe_flow none (some v0) D L eps_rel rho mu nu K_total := by
  show (velocity_from_flowrate Q0 D >>=
      fun v => analyze_core v D L eps_rel rho mu nu K_total) = _
  rw [hv]
  rfl

theorem C8_mode_equivalence_witness :
    velocity_from_flowrate 1 1 = Except.ok (4 / Real.pi) ∧
    analyze_pipe_flow (some 1) none 1 1 0 (some 1) none (some 1) 0 =
      analyze_pipe_flow none (some (4 / Real.pi)) 1 1 0 (some 1) none
        (some 1) 0 := by
  have hv : velocity_from_flowrate 1 1 = Except.ok (4 / Real.pi) := by
    unfold velocity_from_flowrate
    rw [pdiv_of_ne _ (by positivity), show (1 : ℝ) / (Real.pi * 1 ^ 2 / 4) =
      4 / Real.pi by rw [one_pow, mul_one, one_div_div]]
  exact ⟨hv, C8_mode_equivalence 1 (4 / Real.pi) 1 1 0 (some 1) none (some 1)
    0 hv⟩

/-- C5 counterexample: deriving `nu` from `mu` with `rho < 0` does not raise:
`reynolds_number(-1, 1, 1, mu=1)` silently returns `-1`. -/
theorem C5_negative_rho_counterexample :
    reynolds_number (-1) 1 1 (some 1) none = Except.ok (-1) := by
  norm_num [reynolds_number, pdiv, ok_bind, error_bind]

/-- C5 amended: `reynolds_number` returns `V*D/nu` when `nu` is supplied and
`V*D/(mu/rho)` (= `rho*V*D/mu`) otherwise; it raises
`ValueError "Provide mu or nu"` exactly when neither `mu` nor `nu` is
supplied.  When `nu` is derived from `mu` there is no `rho` check: `rho = 0`
raises `ZeroDivisionError` (not `ValueError`), and `rho < 0` silently returns
a (negative) value. -/
theorem C5_reynolds_behavior (rho V D m : ℝ) :
    reynolds_number rho V D none none =
        Except.error (PyErr.valueError "Provide mu or nu") ∧
    (∀ (mu : Option ℝ) (n : ℝ), n ≠ 0 →
        reynolds_number rho V D mu (some n) = Except.ok (V * D / n)) ∧
    (rho = 0 → reynolds_number rho V D (some m) none =
        Except.error PyErr.zeroDivisionError) ∧
    (rho ≠ 0 → m ≠ 0 → reynolds_number rho V D (some m) none =
        Except.ok (V * D / (m / rho))) := by
  refine ⟨rfl, fun mu n hn => ?_, fun h0 => ?_, fun hr hm => ?_⟩
  · cases mu <;> exact pdiv_of_ne (V * D) hn
  · subst h0
    simp only [reynolds_number]
    rw [pdiv_zero, error_bind]
  · simp only [reynolds_number]
    rw [pdiv_of_ne m hr, ok_bind, pdiv_of_ne (V * D) (div_ne_zero hm hr)]

theorem C5_reynolds_behavior_witness :
    reynolds_number 2 1 1 (some 1) none = Except.ok (1 * 1 / (1 / 2)) ∧
    reynolds_number 0 1 1 (some 1) none =
      Except.error PyErr.zeroDivisionError :=
  ⟨(C5_reynolds_behavior 2 1 1 1).2.2.2 (by norm_num) (by norm_num),
   (C5_reynolds_behavior 0 1 1 1).2.2.1 rfl⟩

/-- C6 counterexample: `velocity_from_flowrate(1, -2)` with a negative
diameter does not raise: it silently returns `1 / pi` (since `D` is
squared). -/
theorem C6_negative_D_counterexample :
    velocity_from_flowrate 1 (-2) = Except.ok (1 / Real.pi) := by
  unfold velocity_from_flowrate
  rw [show Real.pi * (-2 : ℝ) ^ 2 / 4 = Real.pi by ring]
  exact pdiv_of_ne 1 Real.pi_ne_zero

/-- C6 amended: `velocity_from_flowrate(Q, D)` returns `Q / (pi * D^2 / 4)`
for every `D ≠ 0` (including negative `D`, for which it silently returns a
value); at `D = 0` it raises `ZeroDivisionError`, not `ValueError`. -/
theorem C6_velocity_behavior (Q : ℝ) :
    (∀ D : ℝ, D ≠ 0 →
        velocity_from_flowrate Q D =
          Except.ok (Q / (Real.pi * D ^ 2 / 4))) ∧
    velocity_from_flowrate Q 0 = Except.error PyErr.zeroDivisionError := by
  constructor
  · intro D hD
    exact pdiv_of_ne Q (by positivity)
  · unfold velocity_from_flowrate
    rw [show Real.pi * (0 : ℝ) ^ 2 / 4 = 0 by ring]
    exact pdiv_zero Q

/-! Analytic toolbox: bounds on `logb 10` used to settle the turbulent-regime
claims. -/

theorem two_le_log_ten : (2 : ℝ) ≤ Real.log 10 := by
  rw [Real.le_log_iff_exp_le (by norm_num)]
  have h := Real.exp_one_lt_d9
  have h2 : Real.exp 2 = Real.exp 1 * Real.exp 1 := by
    rw [← Real.exp_add]
    norm_num
  nlinarith [Real.exp_pos 1]

theorem logb_ten_le_half {x : ℝ} (hx : 0 ≤ x) :
    Real.logb 10 (1 + x) ≤ x / 2 := by
  have hlog : Real.log (1 + x) ≤ x := by
    have := Real.log_le_sub_one_of_pos (show (0 : ℝ) < 1 + x by linarith)
    linarith
  have hlognn : 0 ≤ Real.log (1 + x) := Real.log_nonneg (by linarith)
  have hten := two_le_log_ten
  rw [Real.logb, div_le_div_iff₀ (by linarith) (by norm_num)]
  nlinarith

/-- Evaluation of the Swamee-Jain function on its non-raising prefix: under
`Re > 0`, `eps ≥ 0`, `D > 0` every step before the final division succeeds,
so the result is `0.25 / l^2` computed by (possibly raising) division. -/
theorem swamee_jain_eval {Re eps D : ℝ} (hRe : 0 < Re) (heps : 0 ≤ eps)
    (hD : 0 < D) :
    friction_factor_swamee_jain Re eps D =
      pdiv 0.25
        ((Real.logb 10 (eps / D / 3.7 + 5.74 / Re ^ (0.9 : ℝ))) ^ 2) := by
  have hR : 0 < Re ^ (0.9 : ℝ) := Real.rpow_pos_of_pos hRe _
  have harg : 0 < eps / D / 3.7 + 5.74 / Re ^ (0.9 : ℝ) := by positivity
  unfold friction_factor_swamee_jain
  rw [if_neg (not_le.mpr hRe), pdiv_of_ne eps (ne_of_gt hD), ok_bind,
    pdiv_of_ne 5.74 (ne_of_gt hR), ok_bind, plog10_of_pos harg, ok_bind]

/-- The Swamee-Jain formula as the spec writes it:
`f_sj = 0.25 / [log10(eps/(3.7 D) + 5.74/Re^0.9)]^2`. -/
noncomputable def swamee_jain_formula (Re eps D : ℝ) : ℝ :=
  0.25 / (Real.logb 10 (eps / (3.7 * D) + 5.74 / Re ^ (0.9 : ℝ))) ^ 2

/-- C2: for every `Re ≥ 2300`, `eps ≥ 0`, `D > 0`, `friction_factor` first
computes the explicit Swamee-Jain value `f_sj` and returns it exactly when
`0 < f_sj < 1`; in every other case it returns the Colebrook iterative
solver's result on the same `(Re, eps, D)` (with the default seed `0.02`,
cap `50` and tolerance `1e-6`). -/
theorem C2_swamee_jain_selection (Re eps D : ℝ) (h1 : 2300 ≤ Re)
    (h2 : 0 ≤ eps) (h3 : 0 < D) :
    friction_factor Re eps D =
      if 0 < swamee_jain_formula Re eps D ∧ swamee_jain_formula Re eps D < 1
      then Except.ok (swamee_jain_formula Re eps D)
      else friction_factor_colebrook Re eps D 0.02 50 1e-6 := by
  have hRe : (0 : ℝ) < Re := by linarith
  have hform : swamee_jain_formula Re eps D =
      0.25 / (Real.logb 10 (eps / D / 3.7 + 5.74 / Re ^ (0.9 : ℝ))) ^ 2 := by
    unfold swamee_jain_formula
    rw [show eps / (3.7 * D) = eps / D / 3.7 by rw [div_div, mul_comm]]
  unfold friction_factor
  rw [if_neg (not_le.mpr hRe), if_neg (not_lt.mpr h1), swamee_jain_eval hRe h2 h3]
  by_cases hl : Real.logb 10 (eps / D / 3.7 + 5.74 / Re ^ (0.9 : ℝ)) = 0
  · rw [hl] at hform
    rw [hl, show ((0 : ℝ)) ^ 2 = 0 by norm_num, pdiv_zero]
    have hf0 : swamee_jain_formula Re eps D = 0 := by
      rw [hform]
      norm_num
    rw [if_neg (show ¬(0 < swamee_jain_formula Re eps D ∧
        swamee_jain_formula Re eps D < 1) by rw [hf0]; simp)]
  · rw [pdiv_of_ne 0.25 (pow_ne_zero 2 hl), ← hform]

theorem C2_swamee_jain_selection_witness :
    friction_factor 2300 0 1 =
      if 0 < swamee_jain_formula 2300 0 1 ∧ swamee_jain_formula 2300 0 1 < 1
      then Except.ok (swamee_jain_formula 2300 0 1)
      else friction_factor_colebrook 2300 0 1 0.02 50 1e-6 :=
  C2_swamee_jain_selection 2300 0 1 (by norm_num) (le_refl 0) (by norm_num)

/-- Case analysis of the Colebrook iteration under `Re > 0`, `eps ≥ 0`,
`D > 0`: from a positive iterate every iteration's square root, reciprocal
and logarithm succeed, so the loop either returns a positive value (by early
convergence or by exhausting its budget) or raises `ZeroDivisionError` at
`f_new = 1 / rhs^2` when the computed `rhs` is exactly zero. -/
theorem colebrook_loop_cases (Re eps D tol : ℝ) (hRe : 0 < Re)
    (heps : 0 ≤ eps) (hD : 0 < D) :
    ∀ (n : ℕ) (f : ℝ), 0 < f →
      (∃ v, 0 < v ∧ colebrook_loop Re eps D tol n f = Except.ok v) ∨
      colebrook_loop Re eps D tol n f =
        Except.error PyErr.zeroDivisionError := by
  intro n
  induction n with
  | zero => exact fun f hf => Or.inl ⟨f, hf, rfl⟩
  | succ n ih =>
    intro f hf
    have hs : 0 < Real.sqrt f := Real.sqrt_pos.mpr hf
    have harg : 0 < eps / D / 3.7 + 2.51 / (Re * Real.sqrt f) := by positivity
    rw [colebrook_loop, psqrt_of_nonneg hf.le, ok_bind,
      pdiv_of_ne 1 (ne_of_gt hs), ok_bind, pdiv_of_ne eps (ne_of_gt hD),
      ok_bind, pdiv_of_ne 2.51 (by positivity), ok_bind,
      plog10_of_pos harg, ok_bind]
    dsimp only
    set l := Real.logb 10 (eps / D / 3.7 + 2.51 / (Re * Real.sqrt f)) with hl
    by_cases h0 : ((-2 : ℝ) * l) ^ 2 = 0
    · rw [h0, pdiv_zero, error_bind]
      exact Or.inr rfl
    · have hpos : 0 < ((-2 : ℝ) * l) ^ 2 := (sq_nonneg _).lt_of_ne (Ne.symm h0)
      rw [pdiv_of_ne 1 h0, ok_bind]
      by_cases hconv : |1 / ((-2 : ℝ) * l) ^ 2 - f| < tol
      · rw [if_pos hconv]
        exact Or.inl ⟨_, by positivity, rfl⟩
      · rw [if_neg hconv]
        exact ih _ (by positivity)

/-- C3 amended: for every `Re > 0`, `eps ≥ 0`, `D > 0`, the Colebrook solver
runs the seed-`0.02`, cap-`50` loop exactly as claimed (per iteration:
`f_new = 1/rhs^2`, early return when `|f_new − f| < 1e-6`, damped update
`0.5*(f + f_new)` otherwise, and an exhausted budget returns the last `f`
without error); but an iteration whose `rhs` is exactly zero raises
`ZeroDivisionError`, so the overall result is either a positive value or
that error — not unconditionally a normal return. -/
theorem C3_colebrook_policy (Re eps D : ℝ) (hRe : 0 < Re) (heps : 0 ≤ eps)
    (hD : 0 < D) :
    (∀ f : ℝ, colebrook_loop Re eps D 1e-6 0 f = Except.ok f) ∧
    ((∃ v, 0 < v ∧
        friction_factor_colebrook Re eps D 0.02 50 1e-6 = Except.ok v) ∨
      friction_factor_colebrook Re eps D 0.02 50 1e-6 =
        Except.error PyErr.zeroDivisionError) := by
  constructor
  · exact fun f => rfl
  · unfold friction_factor_colebrook
    rw [if_neg (not_le.mpr hRe)]
    exact colebrook_loop_cases Re eps D 1e-6 hRe heps hD 50 0.02 (by norm_num)

theorem C3_colebrook_policy_witness :
    (∀ f : ℝ, colebrook_loop 1000 0 1 1e-6 0 f = Except.ok f) ∧
    ((∃ v, 0 < v ∧
        friction_factor_colebrook 1000 0 1 0.02 50 1e-6 = Except.ok v) ∨
      friction_factor_colebrook 1000 0 1 0.02 50 1e-6 =
        Except.error PyErr.zeroDivisionError) :=
  C3_colebrook_policy 1000 0 1 (by norm_num) (le_refl 0) (by norm_num)

/-- C3 counterexample: the Colebrook solver can raise instead of returning a
best-effort value.  At `Re = 251 / sqrt 0.02`, `eps = 3.663`, `D = 1` the very
first iteration computes `rhs = -2 * log10(0.99 + 0.01) = 0` and
`f_new = 1.0 / rhs^2` raises `ZeroDivisionError`. -/
theorem C3_zero_division_counterexample :
    friction_factor_colebrook (251 / Real.sqrt 0.02) 3.663 1 0.02 50 1e-6 =
      Except.error PyErr.zeroDivisionError := by
  have hs : 0 < Real.sqrt 0.02 := Real.sqrt_pos.mpr (by norm_num)
  have hRe : (0 : ℝ) < 251 / Real.sqrt 0.02 := by positivity
  unfold friction_factor_colebrook
  rw [if_neg (not_le.mpr hRe), show (50 : ℕ) = 49 + 1 by norm_num,
    colebrook_loop, psqrt_of_nonneg (show (0 : ℝ) ≤ 0.02 by norm_num),
    ok_bind, pdiv_of_ne 1 (ne_of_gt (Real.sqrt_pos.mpr (by norm_num))),
    ok_bind, pdiv_of_ne 3.663 (by norm_num : (1 : ℝ) ≠ 0), ok_bind,
    div_mul_cancel₀ 251 (ne_of_gt hs),
    pdiv_of_ne 2.51 (by norm_num : (251 : ℝ) ≠ 0), ok_bind,
    show (3.663 : ℝ) / 1 / 3.7 + 2.51 / 251 = 1 by norm_num,
    plog10_of_pos one_pos, ok_bind, Real.logb_one]
  dsimp only
  rw [show ((-2 : ℝ) * 0) ^ 2 = 0 by norm_num, pdiv_zero, error_bind]

/-- C1 amended: for every `Re ≥ 2300`, `eps ≥ 0`, `D > 0`, any value that
`friction_factor` returns (accepted Swamee-Jain or Colebrook fallback) is
strictly positive; but it need not be below `1` (see the counterexample). -/
theorem C1_turbulent_result_positive (Re eps D v : ℝ) (h1 : 2300 ≤ Re)
    (h2 : 0 ≤ eps) (h3 : 0 < D)
    (hv : friction_factor Re eps D = Except.ok v) : 0 < v := by
  have hRe : (0 : ℝ) < Re := by linarith
  have hcole : friction_factor_colebrook Re eps D 0.02 50 1e-6 =
      Except.ok v → 0 < v := by
    intro hc
    unfold friction_factor_colebrook at hc
    rw [if_neg (not_le.mpr hRe)] at hc
    rcases colebrook_loop_cases Re eps D 1e-6 hRe h2 h3 50 0.02 (by norm_num)
      with ⟨w, hw, heq⟩ | herr
    · rw [heq] at hc
      injection hc with h
      rwa [← h]
    · rw [herr] at hc
      exact absurd hc (by simp)
  unfold friction_factor at hv
  rw [if_neg (not_le.mpr hRe), if_neg (not_lt.mpr h1)] at hv
  cases hsw : friction_factor_swamee_jain Re eps D with
  | ok fsj =>
    rw [hsw] at hv
    dsimp only at hv
    by_cases hc : 0 < fsj ∧ fsj < 1
    · rw [if_pos hc] at hv
      injection hv with h
      rw [← h]
      exact hc.1
    · rw [if_neg hc] at hv
      exact hcole hv
  | error e =>
    rw [hsw] at hv
    dsimp only at hv
    exact hcole hv

theorem C1_turbulent_result_positive_witness :
    friction_factor 2300 (3.7 * (10 - 5.74 / (2300 : ℝ) ^ (0.9 : ℝ))) 1 =
        Except.ok 0.25 ∧ (0 : ℝ) < 0.25 := by
  have hR : 0 < (2300 : ℝ) ^ (0.9 : ℝ) :=
    Real.rpow_pos_of_pos (by norm_num) _
  have hR1 : 1 ≤ (2300 : ℝ) ^ (0.9 : ℝ) := by
    calc (1 : ℝ) = (2300 : ℝ) ^ (0 : ℝ) := (Real.rpow_zero _).symm
    _ ≤ (2300 : ℝ) ^ (0.9 : ℝ) :=
        Real.rpow_le_rpow_of_exponent_le (by norm_num) (by norm_num)
  have hB : 5.74 / (2300 : ℝ) ^ (0.9 : ℝ) ≤ 5.74 :=
    div_le_self (by norm_num) hR1
  have heps0 : 0 ≤ 3.7 * (10 - 5.74 / (2300 : ℝ) ^ (0.9 : ℝ)) := by nlinarith
  have hev : friction_factor 2300
      (3.7 * (10 - 5.74 / (2300 : ℝ) ^ (0.9 : ℝ))) 1 = Except.ok 0.25 := by
    have harg : 3.7 * (10 - 5.74 / (2300 : ℝ) ^ (0.9 : ℝ)) / 1 / 3.7 +
        5.74 / (2300 : ℝ) ^ (0.9 : ℝ) = 10 := by
      rw [div_one, mul_div_cancel_left₀ _ (by norm_num : (3.7 : ℝ) ≠ 0),
        sub_add_cancel]
    unfold friction_factor
    rw [if_neg (by norm_num), if_neg (by norm_num),
      swamee_jain_eval (by norm_num) heps0 (by norm_num), harg,
      Real.logb_self_eq_one (by norm_num), one_pow,
      pdiv_of_ne 0.25 (by norm_num : (1 : ℝ) ≠ 0)]
    norm_num
  exact ⟨hev, C1_turbulent_result_positive 2300
    (3.7 * (10 - 5.74 / (2300 : ℝ) ^ (0.9 : ℝ))) 1 0.25 (by norm_num) heps0
    (by norm_num) hev⟩

/-- At `Re = 10^9`, `eps = 3.7`, `D = 1` the Swamee-Jain value is
`0.25 / log10(1 + 5.74/Re^0.9)^2 ≥ 1`, so `friction_factor` rejects it and
falls back to the Colebrook solver. -/
theorem swamee_rejected_at_large_Re :
    friction_factor (10 ^ 9) 3.7 1 =
      friction_factor_colebrook (10 ^ 9) 3.7 1 0.02 50 1e-6 := by
  have hR9 : (100000000 : ℝ) ≤ ((10 : ℝ) ^ 9) ^ (0.9 : ℝ) := by
    have key : ((10 : ℝ) ^ 9) ^ (0.9 : ℝ) = (10 : ℝ) ^ (8.1 : ℝ) := by
      rw [← Real.rpow_natCast 10 9,
        ← Real.rpow_mul (by norm_num : (0 : ℝ) ≤ 10)]
      norm_num
    have h8 : ((10 : ℝ)) ^ ((8 : ℕ) : ℝ) ≤ (10 : ℝ) ^ (8.1 : ℝ) :=
      Real.rpow_le_rpow_of_exponent_le (by norm_num) (by norm_num)
    rw [Real.rpow_natCast] at h8
    rw [key]
    linarith [h8]
  have hRpos : (0 : ℝ) < ((10 : ℝ) ^ 9) ^ (0.9 : ℝ) := by positivity
  have hBpos : (0 : ℝ) < 5.74 / ((10 : ℝ) ^ 9) ^ (0.9 : ℝ) := by positivity
  have hBle : 5.74 / ((10 : ℝ) ^ 9) ^ (0.9 : ℝ) ≤ 5.74 / 100000000 := by
    gcongr
  have hlpos : 0 < Real.logb 10 (1 + 5.74 / ((10 : ℝ) ^ 9) ^ (0.9 : ℝ)) :=
    Real.logb_pos (by norm_num) (by linarith)
  have hlle : Real.logb 10 (1 + 5.74 / ((10 : ℝ) ^ 9) ^ (0.9 : ℝ)) ≤
      2.87e-8 := by
    have h := logb_ten_le_half hBpos.le
    linarith
  have hlsq : (Real.logb 10 (1 + 5.74 / ((10 : ℝ) ^ 9) ^ (0.9 : ℝ))) ^ 2 <
      0.25 := by nlinarith
  have hrej : ¬(0 < 0.25 /
        (Real.logb 10 (1 + 5.74 / ((10 : ℝ) ^ 9) ^ (0.9 : ℝ))) ^ 2 ∧
      0.25 / (Real.logb 10 (1 + 5.74 / ((10 : ℝ) ^ 9) ^ (0.9 : ℝ))) ^ 2 <
        1) := by
    rintro ⟨-, hlt⟩
    have hone : 1 < 0.25 /
        (Real.logb 10 (1 + 5.74 / ((10 : ℝ) ^ 9) ^ (0.9 : ℝ))) ^ 2 :=
      (one_lt_div (pow_pos hlpos 2)).mpr hlsq
    linarith
  unfold friction_factor
  rw [if_neg (by norm_num), if_neg (by norm_num),
    swamee_jain_eval (by norm_num) (by norm_num) (by norm_num),
    show (3.7 : ℝ) / 1 / 3.7 = 1 by norm_num,
    pdiv_of_ne 0.25 (pow_ne_zero 2 (ne_of_gt hlpos))]
  dsimp only
  rw [if_neg hrej]

/-- One divergent Colebrook iteration at `Re = 10^9`, `eps = 3.7`, `D = 1`:
from any iterate `f ≥ 0.02` the proposed `f_new = 1/rhs^2` is at least
`10^17 * f`, so the tolerance test fails and the loop continues from the
damped update. -/
theorem cole_step_diverge (f : ℝ) (hf : 0.02 ≤ f) (n : ℕ) :
    ∃ fn : ℝ, 1e17 * f ≤ fn ∧
      colebrook_loop (10 ^ 9) 3.7 1 1e-6 (n + 1) f =
        colebrook_loop (10 ^ 9) 3.7 1 1e-6 n (0.5 * (f + fn)) := by
  have hfpos : 0 < f := lt_of_lt_of_le (by norm_num) hf
  have hs : 0 < Real.sqrt f := Real.sqrt_pos.mpr hfpos
  have hprod : (0 : ℝ) < 10 ^ 9 * Real.sqrt f := by positivity
  have hxpos : (0 : ℝ) < 2.51 / (10 ^ 9 * Real.sqrt f) := by positivity
  have hlpos : 0 < Real.logb 10 (1 + 2.51 / (10 ^ 9 * Real.sqrt f)) :=
    Real.logb_pos (by norm_num) (by linarith)
  have hlhalf : Real.logb 10 (1 + 2.51 / (10 ^ 9 * Real.sqrt f)) ≤
      2.51 / (10 ^ 9 * Real.sqrt f) / 2 := logb_ten_le_half hxpos.le
  have hrsq_pos : 0 <
      (-2 * Real.logb 10 (1 + 2.51 / (10 ^ 9 * Real.sqrt f))) ^ 2 := by
    have h4 : (-2 * Real.logb 10 (1 + 2.51 / (10 ^ 9 * Real.sqrt f))) ^ 2 =
        4 * (Real.logb 10 (1 + 2.51 / (10 ^ 9 * Real.sqrt f))) ^ 2 := by
      ring
    rw [h4]
    exact mul_pos (by norm_num) (pow_pos hlpos 2)
  have hsq : Real.sqrt f ^ 2 = f := Real.sq_sqrt hfpos.le
  have hx2 : (2.51 / ((10 : ℝ) ^ 9 * Real.sqrt f)) ^ 2 =
      6.3001 / (10 ^ 18 * f) := by
    rw [div_pow, mul_pow, hsq]
    norm_num
  have hfn_ge : 1e17 * f ≤
      1 / (-2 * Real.logb 10 (1 + 2.51 / (10 ^ 9 * Real.sqrt f))) ^ 2 := by
    have h1 : (-2 * Real.logb 10 (1 + 2.51 / (10 ^ 9 * Real.sqrt f))) ^ 2 ≤
        (2.51 / ((10 : ℝ) ^ 9 * Real.sqrt f)) ^ 2 := by
      nlinarith
    have h2 : 1 / (2.51 / ((10 : ℝ) ^ 9 * Real.sqrt f)) ^ 2 ≤
        1 / (-2 * Real.logb 10 (1 + 2.51 / (10 ^ 9 * Real.sqrt f))) ^ 2 :=
      one_div_le_one_div_of_le hrsq_pos h1
    have h3 : 1 / (2.51 / ((10 : ℝ) ^ 9 * Real.sqrt f)) ^ 2 =
        10 ^ 18 * f / 6.3001 := by
      rw [hx2, one_div_div]
    have h4 : 1e17 * f ≤ 10 ^ 18 * f / 6.3001 := by
      rw [le_div_iff₀ (by norm_num : (0 : ℝ) < 6.3001)]
      nlinarith
    linarith
  have hnc : ¬(|1 / (-2 * Real.logb 10
      (1 + 2.51 / (10 ^ 9 * Real.sqrt f))) ^ 2 - f| < 1e-6) := by
    have hgap : (1e-6 : ℝ) ≤
        1 / (-2 * Real.logb 10 (1 + 2.51 / (10 ^ 9 * Real.sqrt f))) ^ 2 -
          f := by nlinarith
    exact not_lt.mpr (le_trans hgap (le_abs_self _))
  refine ⟨1 / (-2 * Real.logb 10
      (1 + 2.51 / (10 ^ 9 * Real.sqrt f))) ^ 2, hfn_ge, ?_⟩
  rw [colebrook_loop, psqrt_of_nonneg hfpos.le, ok_bind,
    pdiv_of_ne 1 (ne_of_gt hs), ok_bind,
    pdiv_of_ne 3.7 (by norm_num : (1 : ℝ) ≠ 0), ok_bind,
    pdiv_of_ne 2.51 (ne_of_gt hprod), ok_bind,
    show (3.7 : ℝ) / 1 / 3.7 = 1 by norm_num,
    plog10_of_pos (by linarith :
      (0 : ℝ) < 1 + 2.51 / (10 ^ 9 * Real.sqrt f)), ok_bind]
  dsimp only
  rw [pdiv_of_ne 1 (ne_of_gt hrsq_pos), ok_bind, if_neg hnc]

/-- Iterating the divergent step: at `Re = 10^9`, `eps = 3.7`, `D = 1` the
Colebrook loop never meets its tolerance, stays above `1` from the first
damped update on, and after exhausting any remaining budget returns a value
that is at least `1`. -/
theorem cole_diverge_loop : ∀ (n : ℕ) (f : ℝ), 0.02 ≤ f →
    ∃ v, colebrook_loop (10 ^ 9) 3.7 1 1e-6 (n + 1) f = Except.ok v ∧
      1 ≤ v := by
  intro n
  induction n with
  | zero =>
    intro f hf
    obtain ⟨fn, hge, heq⟩ := cole_step_diverge f hf 0
    rw [heq]
    exact ⟨0.5 * (f + fn), rfl, by nlinarith⟩
  | succ n ih =>
    intro f hf
    obtain ⟨fn, hge, heq⟩ := cole_step_diverge f hf (n + 1)
    rw [heq]
    exact ih _ (by nlinarith)

/-- C1 counterexample: at `Re = 10^9 ≥ 2300`, `eps = 3.7 ≥ 0`, `D = 1 > 0`,
`friction_factor` returns a value (from the Colebrook fallback) that is
`≥ 1`, refuting `0 < f < 1`. -/
theorem C1_result_not_below_one_counterexample :
    match friction_factor (10 ^ 9) 3.7 1 with
    | Except.ok v => 1 ≤ v
    | Except.error _ => False := by
  obtain ⟨v, heq, hv⟩ := cole_diverge_loop 49 0.02 (le_refl _)
  have hff : friction_factor (10 ^ 9) 3.7 1 = Except.ok v := by
    rw [swamee_rejected_at_large_Re]
    unfold friction_factor_colebrook
    rw [if_neg (by norm_num : ¬((10 : ℝ) ^ 9 ≤ 0)),
      show (50 : ℕ) = 49 + 1 by norm_num]
    exact heq
  rw [hff]
  exact hv

theorem C6_velocity_behavior_witness :
    velocity_from_flowrate 2 (-1) =
        Except.ok (2 / (Real.pi * (-1) ^ 2 / 4)) ∧
    velocity_from_flowrate 2 0 = Except.error PyErr.zeroDivisionError :=
  ⟨(C6_velocity_behavior 2).1 (-1) (by norm_num), (C6_velocity_behavior 2).2⟩

end PipeCalc
